import Mathlib

/-!
Verification of the aztec-wormhole-app-demo relayer and frontend scripts.

The definitions below are a shallow embedding of the repository's code:

* the Go EVM chain client (relayer, `EVMClient.SendVerifyTransaction`):
  bytes are `List Nat` (each entry a byte value), external RPC calls are
  passed in as an explicit environment of `Except`-valued results;
* the frontend script `send-message.mjs` (nonce management,
  `hexAddressToUint8Array`, `createMessageArrays`, the SIGINT/SIGTERM
  cleanup handlers);
* the relayer components whose source is not part of this repository
  snapshot (Dedup Ledger, Retry/Failover Controller, Relevance Filter)
  are modelled from the design spec, and are marked as such.
-/

namespace AztecWormhole

/-! ### Byte-level helpers shared by the EVM client embedding -/

/-- One hexadecimal digit character for a value below 16 (lower case,
as produced by go-ethereum's `Hex()`). -/
def hexDigitChar (n : Nat) : Char :=
  if n < 10 then Char.ofNat (48 + n) else Char.ofNat (87 + n)

/-- Hex characters of a byte list, two characters per byte. -/
def hexChars (bs : List Nat) : List Char :=
  bs.flatMap fun b => [hexDigitChar (b / 16), hexDigitChar (b % 16)]

/-- go-ethereum `common.Hash.Hex()`: the bytes in hex with a `0x` prefix. -/
def hexOfBytes (bs : List Nat) : String :=
  String.mk ('0' :: 'x' :: hexChars bs)

/-- 32-byte big-endian word (ABI head encoding of a `uint256`). -/
def abiWord (n : Nat) : List Nat :=
  (List.range 32).map fun i => n / 256 ^ (31 - i) % 256

/-- Right-pad a byte string with zeros to a multiple of 32 bytes
(ABI tail padding for a dynamic `bytes` value). -/
def padRight32 (bs : List Nat) : List Nat :=
  bs ++ List.replicate ((32 - bs.length % 32) % 32) 0

/-- The 4-byte function selector of `verify(bytes)`:
the first four bytes of `keccak256("verify(bytes)")`, i.e. `0x8e760afe`. -/
def verifySelector : List Nat := [142, 118, 10, 254]

/-- go-ethereum `abi.Pack("verify", vaaBytes)` for the one-method ABI
`verify(bytes encodedVm)` used by the relayer: selector, then the head
word (offset 32 of the dynamic argument), then the length word, then the
payload right-padded to a 32-byte boundary. -/
def abiPackVerify (vaaBytes : List Nat) : List Nat :=
  verifySelector ++ abiWord 32 ++ abiWord vaaBytes.length ++ padRight32 vaaBytes

/-- Value of a hexadecimal digit character, if it is one. -/
def hexVal (c : Char) : Option Nat :=
  if 48 ≤ c.toNat ∧ c.toNat ≤ 57 then some (c.toNat - 48)
  else if 97 ≤ c.toNat ∧ c.toNat ≤ 102 then some (c.toNat - 87)
  else if 65 ≤ c.toNat ∧ c.toNat ≤ 70 then some (c.toNat - 55)
  else none

/-- Numeric value of a hex string (characters that are not hex digits
contribute nothing; callers only use it on well-formed hex). -/
def hexStrToNat (cs : List Char) : Nat :=
  cs.foldl (fun acc c => match hexVal c with
    | some d => acc * 16 + d
    | none => acc) 0

/-- go-ethereum `common.HexToAddress`: strip an optional `0x`, read the
hex value, keep the low 20 bytes. -/
def hexToAddress (s : String) : Nat :=
  let t := if s.startsWith "0x" then s.drop 2 else s
  hexStrToNat t.toList % 256 ^ 20

/-! ### EVM chain client (`EVMClient.SendVerifyTransaction`)

The Go method performs four fallible RPC interactions (pending nonce,
gas price suggestion, network id, broadcast) and one fallible local step
(signing).  The embedding takes their results as an explicit environment
so the method body itself is a pure function of that environment. -/

/-- A legacy EVM transaction as built by `types.NewTransaction`. -/
structure EvmTx where
  nonce : Nat
  toAddr : Nat
  value : Nat
  gasLimit : Nat
  gasPrice : Nat
  data : List Nat
  deriving Repr, DecidableEq

/-- A signed transaction: the payload it signs, the EIP-155 chain id used,
and its 32-byte transaction hash. -/
structure SignedEvmTx where
  tx : EvmTx
  chainID : Nat
  hash : List Nat
  deriving Repr, DecidableEq

/-- Results of the external calls `SendVerifyTransaction` makes, in the
order the Go code makes them. -/
structure EvmEnv where
  pendingNonceAt : Except String Nat
  suggestGasPrice : Except String Nat
  networkID : Except String Nat
  signTx : EvmTx → Nat → Except String SignedEvmTx
  sendTransaction : SignedEvmTx → Except String Unit

/-- The transaction built at `types.NewTransaction(nonce, targetAddr,
big.NewInt(0), 3000000, gasPrice, data)` with `data` the ABI packing of
`verify(vaaBytes)`. -/
def mkVerifyTx (nonce : Nat) (targetContract : String) (gasPrice : Nat)
    (vaaBytes : List Nat) : EvmTx :=
  { nonce := nonce
    toAddr := hexToAddress targetContract
    value := 0
    gasLimit := 3000000
    gasPrice := gasPrice
    data := abiPackVerify vaaBytes }

/-- `EVMClient.SendVerifyTransaction`: packs the `verify` call, fetches
nonce, gas price and chain id, signs and broadcasts; returns the signed
transaction's hex hash on success and `("", error)` on any failure. -/
def SendVerifyTransaction (env : EvmEnv) (targetContract : String)
    (vaaBytes : List Nat) : String × Option String :=
  match env.pendingNonceAt with
  | .error e => ("", some ("failed to get nonce: " ++ e))
  | .ok nonce =>
    match env.suggestGasPrice with
    | .error e => ("", some ("failed to get gas price: " ++ e))
    | .ok gasPrice =>
      let tx := mkVerifyTx nonce targetContract gasPrice vaaBytes
      match env.networkID with
      | .error e => ("", some ("failed to get chain ID: " ++ e))
      | .ok chainID =>
        match env.signTx tx chainID with
        | .error e => ("", some ("failed to sign transaction: " ++ e))
        | .ok signedTx =>
          match env.sendTransaction signedTx with
          | .error e => ("", some ("failed to send transaction: " ++ e))
          | .ok _ => (hexOfBytes signedTx.hash, none)

theorem hexOfBytes_ne_empty (bs : List Nat) : hexOfBytes bs ≠ "" := by
  simp [hexOfBytes, String.ext_iff]

/-- C2: every call to the EVM client's `SendVerifyTransaction` returns
exactly one of two shapes — a non-empty hex transaction hash with no
error on success, or the empty string with an error on any failure
(nonce fetch, gas-price fetch, chain-id fetch, signing or broadcast) —
and never a non-empty identifier together with an error. -/
theorem sendVerify_result_shape (env : EvmEnv) (targetContract : String)
    (vaaBytes : List Nat) :
    (((SendVerifyTransaction env targetContract vaaBytes).1 ≠ "" ∧
      (SendVerifyTransaction env targetContract vaaBytes).2 = none) ∨
     ((SendVerifyTransaction env targetContract vaaBytes).1 = "" ∧
      (SendVerifyTransaction env targetContract vaaBytes).2 ≠ none)) ∧
    ¬((SendVerifyTransaction env targetContract vaaBytes).1 ≠ "" ∧
      (SendVerifyTransaction env targetContract vaaBytes).2 ≠ none) := by
  have h : ((SendVerifyTransaction env targetContract vaaBytes).1 ≠ "" ∧
      (SendVerifyTransaction env targetContract vaaBytes).2 = none) ∨
      ((SendVerifyTransaction env targetContract vaaBytes).1 = "" ∧
      (SendVerifyTransaction env targetContract vaaBytes).2 ≠ none) := by
    unfold SendVerifyTransaction
    rcases env.pendingNonceAt with e | nonce
    · simp
    rcases env.suggestGasPrice with e | gasPrice
    · simp
    rcases env.networkID with e | chainID
    · simp
    rcases hs : env.signTx (mkVerifyTx nonce targetContract gasPrice vaaBytes)
        chainID with e | signedTx
    · simp [hs]
    rcases hd : env.sendTransaction signedTx with e | u
    · simp [hs, hd]
    · simp [hs, hd, hexOfBytes_ne_empty]
  refine ⟨h, ?_⟩
  rcases h with ⟨h1, h2⟩ | ⟨h1, h2⟩
  · intro hc
    exact hc.2 h2
  · intro hc
    exact hc.1 h1

/-- C7: the transaction the EVM client builds for a payload carries zero
native value and its data is exactly the ABI encoding of the single call
`verify(encodedVm)` — selector, offset word, length word, padded payload —
with the payload bytes embedded unmodified at offset 68. -/
theorem verifyTx_opaque_payload (nonce : Nat) (targetContract : String)
    (gasPrice : Nat) (vaaBytes : List Nat) :
    (mkVerifyTx nonce targetContract gasPrice vaaBytes).value = 0 ∧
    (mkVerifyTx nonce targetContract gasPrice vaaBytes).data =
      verifySelector ++ abiWord 32 ++ abiWord vaaBytes.length ++
        padRight32 vaaBytes ∧
    ((mkVerifyTx nonce targetContract gasPrice vaaBytes).data.drop 68).take
        vaaBytes.length = vaaBytes := by
  refine ⟨rfl, rfl, ?_⟩
  have h68 : (verifySelector ++ abiWord 32 ++
      abiWord vaaBytes.length).length = 68 := by
    simp [verifySelector, abiWord]
  have hdrop : (mkVerifyTx nonce targetContract gasPrice vaaBytes).data.drop 68 =
      padRight32 vaaBytes := by
    show (verifySelector ++ abiWord 32 ++ abiWord vaaBytes.length ++
      padRight32 vaaBytes).drop 68 = padRight32 vaaBytes
    exact List.drop_left' h68
  rw [hdrop, padRight32]
  exact List.take_left' rfl

/-! ### Frontend script `send-message.mjs`: nonce management

The script keeps two BigInt counters (`currentTokenNonce`,
`currentWalletNonce`) and a JSON nonce file holding both; the embedding
carries both counters and the file content in one state record, with the
file write modelled as updating the `file` field. -/

/-- In-memory nonce counters plus the persisted `nonce.json` content
(`token_nonce`, `wallet_nonce`). -/
structure NonceState where
  currentTokenNonce : Int
  currentWalletNonce : Int
  file : Option (Int × Int)
  deriving Repr, DecidableEq

/-- `saveNoncesToFile(tokenNonce, walletNonce)`: writes both counters to
the nonce file. -/
def saveNoncesToFile (tokenNonce walletNonce : Int) (s : NonceState) :
    NonceState :=
  { s with file := some (tokenNonce, walletNonce) }

/-- `getNextTokenNonce()`: increments the token nonce, saves both nonces
to the file, then returns the new token nonce. -/
def getNextTokenNonce (s : NonceState) : Int × NonceState :=
  let s1 := { s with currentTokenNonce := s.currentTokenNonce + 1 }
  let s2 := saveNoncesToFile s1.currentTokenNonce s1.currentWalletNonce s1
  (s2.currentTokenNonce, s2)

/-- `getNextWalletNonce()`: increments the wallet nonce, saves both
nonces to the file, then returns the new wallet nonce. -/
def getNextWalletNonce (s : NonceState) : Int × NonceState :=
  let s1 := { s with currentWalletNonce := s.currentWalletNonce + 1 }
  let s2 := saveNoncesToFile s1.currentTokenNonce s1.currentWalletNonce s1
  (s2.currentWalletNonce, s2)

/-- C8: `getNextTokenNonce` increases only the token nonce by exactly one
(the wallet nonce is unchanged) and `getNextWalletNonce` increases only
the wallet nonce by exactly one (the token nonce is unchanged); in both
cases the file holds both new counters when the value is returned, and
chaining two calls to either operation returns strictly increasing
values. -/
theorem nonce_frame_effects (s : NonceState) :
    ((getNextTokenNonce s).2.currentTokenNonce = s.currentTokenNonce + 1 ∧
     (getNextTokenNonce s).2.currentWalletNonce = s.currentWalletNonce ∧
     (getNextTokenNonce s).2.file =
       some (s.currentTokenNonce + 1, s.currentWalletNonce) ∧
     (getNextTokenNonce s).1 = s.currentTokenNonce + 1) ∧
    ((getNextWalletNonce s).2.currentWalletNonce = s.currentWalletNonce + 1 ∧
     (getNextWalletNonce s).2.currentTokenNonce = s.currentTokenNonce ∧
     (getNextWalletNonce s).2.file =
       some (s.currentTokenNonce, s.currentWalletNonce + 1) ∧
     (getNextWalletNonce s).1 = s.currentWalletNonce + 1) ∧
    (getNextTokenNonce s).1 <
      (getNextTokenNonce (getNextTokenNonce s).2).1 ∧
    (getNextWalletNonce s).1 <
      (getNextWalletNonce (getNextWalletNonce s).2).1 := by
  refine ⟨⟨rfl, rfl, rfl, rfl⟩, ⟨rfl, rfl, rfl, rfl⟩, ?_, ?_⟩
  · show s.currentTokenNonce + 1 < s.currentTokenNonce + 1 + 1
    omega
  · show s.currentWalletNonce + 1 < s.currentWalletNonce + 1 + 1
    omega

/-! ### Frontend script `send-message.mjs`: address and message encoding -/

/-- Strip an optional `0x` prefix, as the script's first step does.
JavaScript strings are modelled as `List Char` (index-addressed character
sequences, which is how the script uses them). -/
def strip0x : List Char → List Char
  | '0' :: 'x' :: rest => rest
  | cs => cs

/-- The byte stored by `addressBytes[i] = parseInt(byteHex, 16)` for a
two-character chunk `byteHex`: JavaScript `parseInt` with radix 16 parses
an optional sign / whitespace / `0x` prefix and then the longest hex-digit
prefix (yielding `NaN` when there is none), and the typed-array store
coerces the result to a byte (`NaN` to 0, negatives modulo 256). -/
def jsParseHexPairByte (c1 c2 : Char) : Nat :=
  match hexVal c1 with
  | some d1 =>
    if c1 = '0' ∧ (c2 = 'x' ∨ c2 = 'X') then 0
    else
      match hexVal c2 with
      | some d2 => d1 * 16 + d2
      | none => d1
  | none =>
    if c1 = '-' then
      match hexVal c2 with
      | some d => (256 - d) % 256
      | none => 0
    else if c1 = '+' ∨ c1.isWhitespace then (hexVal c2).getD 0
    else 0

/-- `hexAddressToUint8Array`: strip `0x`, require exactly 40 remaining
characters (else throw), and return a 31-byte array whose first 20 bytes
come from the hex pairs and whose remaining bytes stay zero. -/
def hexAddressToUint8Array (hexAddress : List Char) : Except String (List Nat) :=
  if (strip0x hexAddress).length ≠ 40 then
    .error ("Invalid address length: " ++ toString (strip0x hexAddress).length
      ++ " chars, expected 40")
  else
    .ok ((List.range 31).map fun i =>
      if i < 20 then
        jsParseHexPairByte ((strip0x hexAddress).getD (2 * i) ' ')
          ((strip0x hexAddress).getD (2 * i + 1) ' ')
      else 0)

theorem jsParseHexPairByte_of_hex (c1 c2 : Char) (d1 d2 : Nat)
    (h1 : hexVal c1 = some d1) (h2 : hexVal c2 = some d2) :
    jsParseHexPairByte c1 c2 = d1 * 16 + d2 := by
  have hx : ¬(c1 = '0' ∧ (c2 = 'x' ∨ c2 = 'X')) := by
    rintro ⟨-, hc2 | hc2⟩
    · subst hc2
      rw [show hexVal 'x' = none from by decide] at h2
      cases h2
    · subst hc2
      rw [show hexVal 'X' = none from by decide] at h2
      cases h2
  simp [jsParseHexPairByte, h1, h2, hx]

theorem getD_range_map (f : Nat → Nat) (i : Nat) (hi : i < 31) :
    ((List.range 31).map f).getD i 256 = f i := by
  rw [List.getD_eq_getElem?_getD]
  simp [List.getElem?_range, hi]

/-- C9: on an input whose stripped hex portion has exactly 40 characters,
`hexAddressToUint8Array` returns a 31-byte array whose first 20 bytes are
the decoded hex pairs and whose last 11 bytes are zero; on any other
stripped length it throws. -/
theorem hexAddress_spec (s : List Char) :
    ((strip0x s).length = 40 →
      ∃ bs, hexAddressToUint8Array s = .ok bs ∧ bs.length = 31 ∧
        (∀ i d1 d2, i < 20 →
          hexVal ((strip0x s).getD (2 * i) ' ') = some d1 →
          hexVal ((strip0x s).getD (2 * i + 1) ' ') = some d2 →
          bs.getD i 256 = d1 * 16 + d2) ∧
        (∀ i, 20 ≤ i → i < 31 → bs.getD i 256 = 0)) ∧
    ((strip0x s).length ≠ 40 →
      ∃ e, hexAddressToUint8Array s = .error e) := by
  constructor
  · intro h40
    refine ⟨(List.range 31).map fun i =>
        if i < 20 then
          jsParseHexPairByte ((strip0x s).getD (2 * i) ' ')
            ((strip0x s).getD (2 * i + 1) ' ')
        else 0, ?_, by simp, ?_, ?_⟩
    · simp [hexAddressToUint8Array, h40]
    · intro i d1 d2 hi hd1 hd2
      rw [getD_range_map _ i (by omega)]
      rw [if_pos hi]
      exact jsParseHexPairByte_of_hex _ _ _ _ hd1 hd2
    · intro i h20 h31
      rw [getD_range_map _ i h31]
      rw [if_neg (by omega)]
  · intro h40
    refine ⟨"Invalid address length: " ++ toString (strip0x s).length
      ++ " chars, expected 40", ?_⟩
    simp [hexAddressToUint8Array, h40]

/-- Witness for C9 at the vault address used by the script and at a
too-short input. -/
theorem hexAddress_spec_witness :
    (∃ bs, hexAddressToUint8Array
        "0x009cbB8f91d392856Cb880d67c806Aa731E3d686".toList = .ok bs ∧
        bs.length = 31 ∧
        (∀ i d1 d2, i < 20 →
          hexVal ((strip0x "0x009cbB8f91d392856Cb880d67c806Aa731E3d686".toList).getD
            (2 * i) ' ') = some d1 →
          hexVal ((strip0x "0x009cbB8f91d392856Cb880d67c806Aa731E3d686".toList).getD
            (2 * i + 1) ' ') = some d2 →
          bs.getD i 256 = d1 * 16 + d2) ∧
        (∀ i, 20 ≤ i → i < 31 → bs.getD i 256 = 0)) ∧
    (∃ e, hexAddressToUint8Array "0x1234".toList = .error e) :=
  ⟨(hexAddress_spec "0x009cbB8f91d392856Cb880d67c806Aa731E3d686".toList).1
      (by decide),
   (hexAddress_spec "0x1234".toList).2 (by decide)⟩

/-- `createMessageArrays(donationAddress, arbChainId, verificationData)`:
start from the two input arrays, push five fresh zeroed 31-byte arrays,
then stamp the last byte of every array with its index plus one (the
`verificationData` argument is never used by the function body; a typed
array write at index 30 of a shorter array would be a silent no-op, as
`List.set` is). -/
def createMessageArrays (donationAddress arbChainId : List Nat)
    (_verificationData : Option Unit) : List (List Nat) :=
  let msgArrays := [donationAddress, arbChainId] ++
    List.replicate 5 (List.replicate 31 0)
  msgArrays.enum.map fun p => p.2.set 30 (p.1 + 1)

/-- C10: for 31-byte inputs, `createMessageArrays` returns exactly 7
arrays of 31 bytes: array 0 is the donation address and array 1 the
chain id on their first 30 bytes, arrays 2..6 are zero on their first 30
bytes, and the final byte of array `i` is `i + 1`. -/
theorem createMessageArrays_spec (dA cI : List Nat) (v : Option Unit)
    (hA : dA.length = 31) (hC : cI.length = 31) :
    (createMessageArrays dA cI v).length = 7 ∧
    (∀ i, i < 7 → ((createMessageArrays dA cI v).getD i []).length = 31) ∧
    (∀ j, j < 30 →
      ((createMessageArrays dA cI v).getD 0 []).getD j 256 = dA.getD j 256) ∧
    (∀ j, j < 30 →
      ((createMessageArrays dA cI v).getD 1 []).getD j 256 = cI.getD j 256) ∧
    (∀ i, 2 ≤ i → i < 7 → ∀ j, j < 30 →
      ((createMessageArrays dA cI v).getD i []).getD j 256 = 0) ∧
    (∀ i, i < 7 → ((createMessageArrays dA cI v).getD i []).getD 30 0 = i + 1) := by
  have hval : createMessageArrays dA cI v =
      [dA.set 30 1, cI.set 30 2, (List.replicate 31 0).set 30 3,
       (List.replicate 31 0).set 30 4, (List.replicate 31 0).set 30 5,
       (List.replicate 31 0).set 30 6, (List.replicate 31 0).set 30 7] := rfl
  rw [hval]
  have hzlen : ∀ k : Nat, ((List.replicate 31 (0 : Nat)).set 30 k).length = 31 := by
    intro k
    simp
  have hzget : ∀ k j : Nat, j < 30 →
      ((List.replicate 31 (0 : Nat)).set 30 k).getD j 256 = 0 := by
    intro k j hj
    rw [List.getD_eq_getElem?_getD, List.getElem?_set_ne (by omega),
      List.getElem?_replicate]
    rw [if_pos (by omega)]
    rfl
  have hzlast : ∀ k : Nat, ((List.replicate 31 (0 : Nat)).set 30 k).getD 30 0 = k := by
    intro k
    rw [List.getD_eq_getElem?_getD, List.getElem?_set_self (by simp)]
    rfl
  refine ⟨rfl, ?_, ?_, ?_, ?_, ?_⟩
  · intro i hi
    interval_cases i <;> simp [hA, hC]
  · intro j hj
    show (dA.set 30 1).getD j 256 = dA.getD j 256
    rw [List.getD_eq_getElem?_getD, List.getElem?_set_ne (by omega),
      ← List.getD_eq_getElem?_getD]
  · intro j hj
    show (cI.set 30 2).getD j 256 = cI.getD j 256
    rw [List.getD_eq_getElem?_getD, List.getElem?_set_ne (by omega),
      ← List.getD_eq_getElem?_getD]
  · intro i h2 h7 j hj
    interval_cases i <;> exact hzget _ j hj
  · intro i hi
    have hlastA : (dA.set 30 1).getD 30 0 = 1 := by
      rw [List.getD_eq_getElem?_getD, List.getElem?_set_self (by omega)]
      rfl
    have hlastC : (cI.set 30 2).getD 30 0 = 2 := by
      rw [List.getD_eq_getElem?_getD, List.getElem?_set_self (by omega)]
      rfl
    interval_cases i
    · exact hlastA
    · exact hlastC
    · exact hzlast 3
    · exact hzlast 4
    · exact hzlast 5
    · exact hzlast 6
    · exact hzlast 7

/-- Witness for C10 at concrete 31-byte inputs (an all-9 address array
and an all-7 chain-id array). -/
theorem createMessageArrays_spec_witness :
    (createMessageArrays (List.replicate 31 9) (List.replicate 31 7)
        none).length = 7 ∧
    (∀ i, i < 7 → ((createMessageArrays (List.replicate 31 9)
        (List.replicate 31 7) none).getD i []).length = 31) ∧
    (∀ j, j < 30 → ((createMessageArrays (List.replicate 31 9)
        (List.replicate 31 7) none).getD 0 []).getD j 256 =
      (List.replicate 31 9).getD j 256) ∧
    (∀ j, j < 30 → ((createMessageArrays (List.replicate 31 9)
        (List.replicate 31 7) none).getD 1 []).getD j 256 =
      (List.replicate 31 7).getD j 256) ∧
    (∀ i, 2 ≤ i → i < 7 → ∀ j, j < 30 →
      ((createMessageArrays (List.replicate 31 9)
        (List.replicate 31 7) none).getD i []).getD j 256 = 0) ∧
    (∀ i, i < 7 → ((createMessageArrays (List.replicate 31 9)
        (List.replicate 31 7) none).getD i []).getD 30 0 = i + 1) :=
  createMessageArrays_spec (List.replicate 31 9) (List.replicate 31 7) none
    (by decide) (by decide)

/-! ### Frontend script `send-message.mjs`: process lifecycle

The script installs SIGINT and SIGTERM handlers that run `cleanup()`
(closing the PXE service and dropping the node client) and then call
`process.exit(0)`; the unhandled-rejection path (`main().catch`) runs
`cleanup()` and calls `process.exit(1)`.  The embedding records the
observable steps as a list of actions. -/

/-- Observable shutdown steps of the script. -/
inductive ProcAction where
  | closePXE
  | nullNodeClient
  | exitCode (code : Nat)
  deriving Repr, DecidableEq

/-- Which global resources are currently initialized (`pxe`,
`nodeClient`). -/
structure ProcState where
  pxe : Bool
  nodeClient : Bool
  deriving Repr, DecidableEq

/-- `cleanup()`: close the PXE service if present, then null out the node
client if present. -/
def cleanup (s : ProcState) : List ProcAction :=
  (if s.pxe then [ProcAction.closePXE] else []) ++
    (if s.nodeClient then [ProcAction.nullNodeClient] else [])

/-- The SIGINT/SIGTERM handler: `cleanup()` then `process.exit(0)`. -/
def handleTermSignal (s : ProcState) : List ProcAction :=
  cleanup s ++ [ProcAction.exitCode 0]

/-- The `main().catch` path for an unrecoverable failure: `cleanup()`
then `process.exit(1)`. -/
def handleFatalError (s : ProcState) : List ProcAction :=
  cleanup s ++ [ProcAction.exitCode 1]

/-- C6: with the PXE connection initialized, a termination signal closes
the PXE subscription first and exits with code 0 (and with no other exit
code), while an unrecoverable failure exits with code 1. -/
theorem lifecycle_spec (s : ProcState) (hpxe : s.pxe = true) :
    (handleTermSignal s).head? = some ProcAction.closePXE ∧
    (handleTermSignal s).getLast? = some (ProcAction.exitCode 0) ∧
    (∀ c, ProcAction.exitCode c ∈ handleTermSignal s → c = 0) ∧
    (handleFatalError s).getLast? = some (ProcAction.exitCode 1) ∧
    (∀ c, ProcAction.exitCode c ∈ handleFatalError s → c = 1) := by
  refine ⟨?_, ?_, ?_, ?_, ?_⟩
  · simp [handleTermSignal, cleanup, hpxe]
  · simp [handleTermSignal]
  · intro c hc
    rcases hnc : s.nodeClient <;>
      simp [handleTermSignal, cleanup, hpxe, hnc] at hc <;>
      omega
  · simp [handleFatalError]
  · intro c hc
    rcases hnc : s.nodeClient <;>
      simp [handleFatalError, cleanup, hpxe, hnc] at hc <;>
      omega

/-- Witness for C6 with both the PXE service and the node client
initialized. -/
theorem lifecycle_spec_witness :
    (handleTermSignal ⟨true, true⟩).head? = some ProcAction.closePXE ∧
    (handleTermSignal ⟨true, true⟩).getLast? = some (ProcAction.exitCode 0) ∧
    (∀ c, ProcAction.exitCode c ∈ handleTermSignal ⟨true, true⟩ → c = 0) ∧
    (handleFatalError ⟨true, true⟩).getLast? = some (ProcAction.exitCode 1) ∧
    (∀ c, ProcAction.exitCode c ∈ handleFatalError ⟨true, true⟩ → c = 1) :=
  lifecycle_spec ⟨true, true⟩ rfl

/-! ### Relayer core components modelled from the spec

The repository snapshot contains the relayer's EVM chain client and its
README, but not the Go source of the Dedup Ledger, Dispatcher,
Retry/Failover Controller or Relevance Filter.  The definitions below
are therefore modelled from the design spec (§3, §4.2, §4.3, §4.4,
§4.6), faithful to its words. -/

/-- Modelled from the spec: the attestation identity triple used for
dedup — (origin chain identifier, origin emitter address, sequence
number). -/
structure Identity where
  originChain : Nat
  originEmitter : List Nat
  sequence : Nat
  deriving Repr, DecidableEq

/-- Modelled from the spec: a ProcessingRecord status — pending,
in-flight, confirmed or failed-permanent. -/
inductive RecStatus where
  | pending
  | inFlight
  | confirmed
  | failedPermanent
  deriving Repr, DecidableEq

/-- Modelled from the spec: a per-attestation ProcessingRecord (status,
destination transaction identifier once known, attempt count). -/
structure ProcessingRecord where
  status : RecStatus
  destTxId : Option String
  attempts : Nat
  deriving Repr, DecidableEq

/-- Modelled from the spec: the Dedup Ledger's record store, keyed by
identity triple. -/
def Ledger := Identity → Option ProcessingRecord

/-- Update one identity's record. -/
def Ledger.set (L : Ledger) (ident : Identity) (r : ProcessingRecord) :
    Ledger :=
  fun j => if j = ident then some r else L j

/-- Modelled from the spec: the outcome a Retry/Failover Controller run
reports to `commit`. -/
inductive Outcome where
  | confirmedOut (txId : String)
  | failedOut (err : String)
  deriving Repr, DecidableEq

/-- Modelled from the spec: the Dedup Ledger's `tryBegin(identity)` —
if no record exists, or an existing record is failed-permanent (retry
eligible) or pending, create/transition it to in-flight and return true;
if the record is already in-flight or confirmed, return false. -/
def tryBegin (L : Ledger) (ident : Identity) : Bool × Ledger :=
  match L ident with
  | none => (true, L.set ident ⟨.inFlight, none, 0⟩)
  | some r =>
    match r.status with
    | .inFlight => (false, L)
    | .confirmed => (false, L)
    | .failedPermanent => (true, L.set ident { r with status := .inFlight })
    | .pending => (true, L.set ident { r with status := .inFlight })

/-- Modelled from the spec: the Dedup Ledger's `commit(identity,
outcome)` — transition in-flight to confirmed (storing the destination
transaction identifier) or to failed-permanent. -/
def commit (L : Ledger) (ident : Identity) (out : Outcome) : Ledger :=
  match L ident with
  | none => L
  | some r =>
    match out with
    | .confirmedOut tx =>
      L.set ident { r with status := .confirmed, destTxId := some tx }
    | .failedOut _ =>
      L.set ident { r with status := .failedPermanent }

/-- Modelled from the spec: the Dispatcher's `dispatch(attestation,
route)` — call `tryBegin`; if false drop (no submission); if true run
the Retry/Failover Controller and `commit` the outcome.  `run` reports
the controller's outcome together with the number of times it invoked
the chain client's `submitVerification`. -/
def dispatch (L : Ledger) (ident : Identity) (run : Unit → Outcome × Nat) :
    Nat × Ledger :=
  let tb := tryBegin L ident
  if tb.1 then
    let res := run ()
    (res.2, commit tb.2 ident res.1)
  else
    (0, tb.2)

/-- C1: once an identity triple's record is confirmed, `tryBegin`
returns false for it and a re-run of the dispatch path performs zero
destination submissions — `submitVerification` is never invoked again
for that identity. -/
theorem dedup_idempotent (L : Ledger) (ident : Identity)
    (r : ProcessingRecord) (run : Unit → Outcome × Nat)
    (hrec : L ident = some r)
    (hst : r.status = .confirmed ∨ r.status = .inFlight) :
    (tryBegin L ident).1 = false ∧ (dispatch L ident run).1 = 0 := by
  have h1 : (tryBegin L ident).1 = false := by
    rcases hst with hst | hst <;> simp [tryBegin, hrec, hst]
  refine ⟨h1, ?_⟩
  simp [dispatch, h1]

/-- Witness for C1: a ledger holding one confirmed record for the
identity (52, registered emitter, sequence 100). -/
theorem dedup_idempotent_witness :
    (tryBegin
      (Ledger.set (fun _ => none) ⟨52, [13], 100⟩
        ⟨RecStatus.confirmed, some "0xabc", 1⟩) ⟨52, [13], 100⟩).1 = false ∧
    (dispatch
      (Ledger.set (fun _ => none) ⟨52, [13], 100⟩
        ⟨RecStatus.confirmed, some "0xabc", 1⟩) ⟨52, [13], 100⟩
      (fun _ => (Outcome.confirmedOut "0xdef", 1))).1 = 0 :=
  dedup_idempotent _ ⟨52, [13], 100⟩ ⟨RecStatus.confirmed, some "0xabc", 1⟩ _
    (by simp [Ledger.set]) (Or.inl rfl)

/-- Modelled from the spec: the two submission paths of a chain client —
the preferred (primary) path and the secondary path used for failover
(e.g. direct submission bypassing the auxiliary verification service). -/
inductive Path where
  | primary
  | secondary
  deriving Repr, DecidableEq

/-- Modelled from the spec: the failure modes a chain client
distinguishes for the Retry/Failover Controller. -/
inductive SubmitResult where
  | success (txId : String)
  | transient (err : String)
  | serviceUnavailable (err : String)
  | permanent (err : String)
  deriving Repr, DecidableEq

/-- Modelled from the spec: a chain client's submission behaviour — the
result of the n-th `submitVerification` call on a given path. -/
def ChainClient := Path → Nat → SubmitResult

/-- Modelled from the spec: the Retry/Failover Controller loop —
bounded attempts; success and Permanent return immediately;
Service-unavailable switches to the secondary path for the remaining
budget; Transient retries on the same path; an exhausted budget is
recorded failed-permanent.  The trace records each attempt's path and
result. -/
def executeAux (client : ChainClient) (path : Path) (fuel attemptNo : Nat)
    (trace : List (Path × SubmitResult)) :
    Outcome × List (Path × SubmitResult) :=
  match fuel with
  | 0 => (.failedOut "attempt budget exhausted", trace)
  | fuel' + 1 =>
    match client path attemptNo with
    | .success tx => (.confirmedOut tx, trace ++ [(path, .success tx)])
    | .permanent e => (.failedOut e, trace ++ [(path, .permanent e)])
    | .serviceUnavailable e =>
      executeAux client .secondary fuel' (attemptNo + 1)
        (trace ++ [(path, .serviceUnavailable e)])
    | .transient e =>
      executeAux client path fuel' (attemptNo + 1)
        (trace ++ [(path, .transient e)])

/-- Modelled from the spec: `execute(client, payload)` with a configured
maximum number of attempts, starting on the primary path. -/
def execute (client : ChainClient) (maxAttempts : Nat) :
    Outcome × List (Path × SubmitResult) :=
  executeAux client .primary maxAttempts 0 []

/-- C4: a client returning a Transient error on every attempt makes the
Controller perform exactly the configured maximum number of attempts —
no more, no fewer — and record the outcome failed-permanent. -/
theorem retry_exhausts_budget (client : ChainClient) (maxAttempts : Nat)
    (h : ∀ p n, ∃ e, client p n = .transient e) :
    (∃ e, (execute client maxAttempts).1 = .failedOut e) ∧
    (execute client maxAttempts).2.length = maxAttempts := by
  suffices haux : ∀ fuel path k tr,
      (∃ e, (executeAux client path fuel k tr).1 = .failedOut e) ∧
      (executeAux client path fuel k tr).2.length = tr.length + fuel by
    have h0 := haux maxAttempts .primary 0 []
    simpa [execute] using h0
  intro fuel
  induction fuel with
  | zero =>
    intro path k tr
    exact ⟨⟨_, rfl⟩, by simp [executeAux]⟩
  | succ n ih =>
    intro path k tr
    obtain ⟨e, he⟩ := h path k
    have hstep : executeAux client path (n + 1) k tr =
        executeAux client path n (k + 1)
          (tr ++ [(path, SubmitResult.transient e)]) := by
      simp [executeAux, he]
    rw [hstep]
    refine ⟨(ih path (k + 1) _).1, ?_⟩
    rw [(ih path (k + 1) _).2]
    simp
    omega

/-- Witness for C4: a client that always times out, with an attempt
budget of 3. -/
theorem retry_exhausts_budget_witness :
    (∃ e, (execute (fun _ _ => SubmitResult.transient "timeout") 3).1 =
      Outcome.failedOut e) ∧
    (execute (fun _ _ => SubmitResult.transient "timeout") 3).2.length = 3 :=
  retry_exhausts_budget (fun _ _ => SubmitResult.transient "timeout") 3
    (fun _ _ => ⟨"timeout", rfl⟩)

/-- C3: when the primary path reports Service-unavailable and the
secondary path succeeds, the Controller switches to the secondary path
immediately — the second attempt is already on the secondary path, with
no primary retry — and the run reaches confirmed. -/
theorem failover_spec (client : ChainClient) (m : Nat) (e tx : String)
    (hp : ∀ n, client .primary n = .serviceUnavailable e)
    (hs : ∀ n, client .secondary n = .success tx)
    (hm : 2 ≤ m) :
    (execute client m).1 = .confirmedOut tx ∧
    (execute client m).2 =
      [(.primary, .serviceUnavailable e), (.secondary, .success tx)] := by
  obtain ⟨k, rfl⟩ : ∃ k, m = k + 2 := ⟨m - 2, by omega⟩
  constructor <;> simp [execute, executeAux, hp 0, hs 1]

/-- Witness for C3: a client whose auxiliary service is down but whose
direct path succeeds, with an attempt budget of 3. -/
theorem failover_spec_witness :
    (execute (fun p _ => match p with
      | .primary => SubmitResult.serviceUnavailable "service down"
      | .secondary => SubmitResult.success "0x1234") 3).1 =
        Outcome.confirmedOut "0x1234" ∧
    (execute (fun p _ => match p with
      | .primary => SubmitResult.serviceUnavailable "service down"
      | .secondary => SubmitResult.success "0x1234") 3).2 =
      [(Path.primary, SubmitResult.serviceUnavailable "service down"),
       (Path.secondary, SubmitResult.success "0x1234")] :=
  failover_spec _ 3 "service down" "0x1234" (fun _ => rfl) (fun _ => rfl)
    (by omega)

/-- Modelled from the spec: an attestation envelope (origin chain,
origin emitter, per-emitter sequence number, opaque payload). -/
structure Attestation where
  originChain : Nat
  originEmitter : List Nat
  sequence : Nat
  payload : List Nat
  deriving Repr, DecidableEq

/-- Modelled from the spec: a configured route — (origin chain, origin
emitter) paired with the destination chain and verification contract. -/
structure Route where
  originChain : Nat
  originEmitter : List Nat
  destChain : Nat
  destContract : String
  deriving Repr, DecidableEq

/-- Modelled from the spec: the Relevance Filter's
`isRelevant(attestation, routeTable)` — exact match on (origin chain
identifier, origin emitter address), no wildcard or prefix matching. -/
def isRelevant (att : Attestation) (routeTable : List Route) : Option Route :=
  routeTable.find? fun r =>
    r.originChain == att.originChain && r.originEmitter == att.originEmitter

/-- The 32-byte Aztec emitter address the deploy script registers with
the Vault (`registerEmitter(52, 0x0d6fe810...)`). -/
def aztecEmitterBytes : List Nat :=
  [0x0d, 0x6f, 0xe8, 0x10, 0x32, 0x11, 0x85, 0xc9,
   0x7a, 0x0e, 0x94, 0x20, 0x0f, 0x99, 0x8b, 0xca,
   0xe7, 0x87, 0xaa, 0xdd, 0xf9, 0x53, 0xa0, 0x3b,
   0x14, 0xec, 0x5d, 0xa3, 0xb6, 0x83, 0x8b, 0xad]

/-- The demo's one configured route: origin chain 52 (Aztec) with the
registered emitter, destination chain 10003 (Arbitrum Sepolia) at the
Vault contract. -/
def demoRouteTable : List Route :=
  [⟨52, aztecEmitterBytes, 10003,
    "0x009cbB8f91d392856Cb880d67c806Aa731E3d686"⟩]

/-- Modelled from the spec: the ingest step for one attestation — a
route match creates a pending ProcessingRecord, no match drops the
attestation without creating a record. -/
def processIncoming (L : Ledger) (routeTable : List Route)
    (att : Attestation) : Ledger × Bool :=
  match isRelevant att routeTable with
  | none => (L, false)
  | some _ =>
    (Ledger.set L ⟨att.originChain, att.originEmitter, att.sequence⟩
      ⟨.pending, none, 0⟩, true)

/-- C5: relevance matching is exact on the (origin chain, origin
emitter) pair — any returned route is a table entry equal to the
attestation's pair — and an attestation from unregistered origin chain
99 matches no route of the demo table and creates no ProcessingRecord. -/
theorem relevance_exact (routeTable : List Route) (att : Attestation)
    (L : Ledger) :
    (∀ r, isRelevant att routeTable = some r →
      r ∈ routeTable ∧ r.originChain = att.originChain ∧
        r.originEmitter = att.originEmitter) ∧
    (att.originChain = 99 →
      isRelevant att demoRouteTable = none ∧
      processIncoming L demoRouteTable att = (L, false)) := by
  constructor
  · intro r hr
    have hmem := List.mem_of_find?_eq_some hr
    have hpred := List.find?_some hr
    simp only [Bool.and_eq_true, beq_iff_eq] at hpred
    exact ⟨hmem, hpred.1, hpred.2⟩
  · intro h99
    have hnone : isRelevant att demoRouteTable = none := by
      simp [isRelevant, demoRouteTable, h99]
    exact ⟨hnone, by simp [processIncoming, hnone]⟩

/-- Witness for C5: the registered pair (52, emitter) matches the demo
route table exactly, while an attestation from origin chain 99 with the
registered emitter bytes is dropped without a record. -/
theorem relevance_exact_witness :
    ((⟨52, aztecEmitterBytes, 10003,
        "0x009cbB8f91d392856Cb880d67c806Aa731E3d686"⟩ : Route) ∈
        demoRouteTable ∧
      (52 : Nat) = 52 ∧ aztecEmitterBytes = aztecEmitterBytes) ∧
    (isRelevant ⟨99, aztecEmitterBytes, 7, [1, 2, 3]⟩ demoRouteTable = none ∧
     processIncoming (fun _ => none) demoRouteTable
       ⟨99, aztecEmitterBytes, 7, [1, 2, 3]⟩ = ((fun _ => none), false)) :=
  ⟨(relevance_exact demoRouteTable ⟨52, aztecEmitterBytes, 100, []⟩
      (fun _ => none)).1 _ rfl,
   (relevance_exact demoRouteTable ⟨99, aztecEmitterBytes, 7, [1, 2, 3]⟩
      (fun _ => none)).2 rfl⟩

end AztecWormhole
